import Mathlib

/-!
Shallow embedding of the quota-aware tweet scheduling core of the X-posts-Bot
repository: the daily quota tracker backed by Redis (src/services/QueueService.js,
src/services/TwitterService.js), the persistent job store
(src/services/DatabaseService.js), the delivery workers
(src/workers/tweetProcessor.js), the AI text post-processing
(src/services/AIService.js) and the submission validation schema
(src/utils/validation.js, provided as src/unnamed/part_001).
JavaScript strings that play the role of null/undefined through falsiness are
modelled as the empty string; thrown exceptions are modelled with Except.
-/

namespace XBot

/-- config.rateLimits.dailyTweetLimit (src/config/index.js). -/
def dailyTweetLimit : Nat := 17

/-! ### Generic association-list store helpers -/

def assocLookup {α : Type} : List (String × α) → String → Option α
  | [], _ => none
  | (k, v) :: rest, key => if k = key then some v else assocLookup rest key

def assocSet {α : Type} : List (String × α) → String → α → List (String × α)
  | [], key, v => [(key, v)]
  | (k0, v0) :: rest, key, v =>
      if k0 = key then (k0, v) :: rest else (k0, v0) :: assocSet rest key v

/-! ### Redis model

The daily counter lives in Redis. A store is a set of string-keyed numeric
values plus a reachability flag; an unreachable store makes every command
reject, which the JavaScript callers observe as a caught exception. -/

structure Redis where
  reachable : Bool
  data : List (String × Nat)
deriving DecidableEq

def redisGet (r : Redis) (key : String) : Except Unit (Option Nat) :=
  if r.reachable then Except.ok (assocLookup r.data key) else Except.error ()

def redisIncr (r : Redis) (key : String) : Except Unit (Nat × Redis) :=
  if r.reachable then
    let n := (assocLookup r.data key).getD 0 + 1
    Except.ok (n, { r with data := assocSet r.data key n })
  else Except.error ()

/-! ### QueueService quota tracker (src/services/QueueService.js lines 184-218) -/

/-- Key written by incrementDailyCount and read by getDailyCount: the counter
name joined with the current date string (new Date().toDateString()). -/
def dailyCountKeyFor (today : String) : String := "daily_tweet_count:" ++ today

/-- QueueService.canProcessTweet (lines 184-193). It reads the bare key
"daily_tweet_count" (no date suffix), computes remaining = dailyTweetLimit -
count with JavaScript number semantics (modelled in Int so the difference can
be non-positive), and returns remaining > 0; any Redis error is caught and the
function returns false. -/
def canProcessTweet (r : Redis) : Bool :=
  match redisGet r "daily_tweet_count" with
  | Except.error _ => false
  | Except.ok v => decide ((dailyTweetLimit : Int) - ((v.getD 0 : Nat) : Int) > 0)

/-- QueueService.incrementDailyCount (lines 195-206): INCR on the date-suffixed
key, then a 24h EXPIRE (a no-op on the value in this model); a Redis error is
re-thrown. -/
def incrementDailyCount (r : Redis) (today : String) : Except Unit (Nat × Redis) :=
  redisIncr r (dailyCountKeyFor today)

/-- QueueService.getDailyCount (lines 208-218): GET on the date-suffixed key,
null coerced to 0; any Redis error is caught and 0 is returned. -/
def getDailyCount (r : Redis) (today : String) : Nat :=
  match redisGet r (dailyCountKeyFor today) with
  | Except.error _ => 0
  | Except.ok v => v.getD 0

/-- TwitterService.updateRateLimitStatus remaining computation
(src/services/AIService.js concatenation, lines 311-312):
Math.max(0, dailyTweetLimit - dailyCount). -/
def rateLimitRemaining (dailyCount : Nat) : Int :=
  max 0 ((dailyTweetLimit : Int) - (dailyCount : Int))

/-- One admission attempt as performed by TwitterService.postTweet
(lines 238-252 of the concatenated file): consult canProcessTweet, and on
success of the external post increment the daily counter. The check and the
increment are two separate Redis commands in the source. -/
def sendAttemptOnce (r : Redis) (today : String) : Bool × Redis :=
  if canProcessTweet r then
    match incrementDailyCount r today with
    | Except.ok (_, r1) => (true, r1)
    | Except.error _ => (false, r)
  else (false, r)

/-- Sequential run of n admission attempts; returns how many succeeded and the
final store. The sequential run is one particular interleaving of n concurrent
admissions. -/
def sendAttemptN : Nat → Redis → String → Nat × Redis
  | 0, r, _ => (0, r)
  | n + 1, r, today =>
      let step := sendAttemptOnce r today
      let rest := sendAttemptN n step.2 today
      ((if step.1 then 1 else 0) + rest.1, rest.2)

/-- Apply incrementDailyCount n times in sequence (stopping if the store
errors). -/
def iterateIncr : Nat → Redis → String → Redis
  | 0, r, _ => r
  | n + 1, r, today =>
      match incrementDailyCount r today with
      | Except.ok (_, r1) => iterateIncr n r1 today
      | Except.error _ => r

/-- Concrete current-day string in the new Date().toDateString() format. -/
def dayEx : String := "Mon Oct 13 2025"

/-! ### Persistent job store (src/services/DatabaseService.js)

A scheduled_tweets row, with columns as created by the route handler
(src/routes/tweet.js) and the schema migration. Optional columns are Option
String; status is a plain string enum {scheduled, sent, failed, cancelled}. -/

structure Post where
  schedule_type : String
  cron_time : String
  status : String
  custom_prompt : Option String
  include_image : Bool
  image_url : Option String
  image_prompt : Option String
  text : Option String
  tweet_id : Option String
  error_message : Option String
  sent_at : Option String
  failed_at : Option String
  cancelled_at : Option String
  updated_at : Option String
deriving DecidableEq

/-- Partial update object passed to updateScheduledTweet; a some field means
the column is present in the update payload. -/
structure PostUpdates where
  status : Option String := none
  text : Option String := none
  tweet_id : Option String := none
  error_message : Option String := none
  sent_at : Option String := none
  failed_at : Option String := none
  cancelled_at : Option String := none
deriving DecidableEq

/-- Supabase .update(updateData): each column present in the payload
overwrites the stored value, and updated_at is always set to the current
timestamp (DatabaseService.updateScheduledTweet lines 67-70). -/
def applyUpdates (p : Post) (u : PostUpdates) (now : String) : Post :=
  { p with
    status := u.status.getD p.status
    text := match u.text with | some t => some t | none => p.text
    tweet_id := match u.tweet_id with | some t => some t | none => p.tweet_id
    error_message := match u.error_message with | some t => some t | none => p.error_message
    sent_at := match u.sent_at with | some t => some t | none => p.sent_at
    failed_at := match u.failed_at with | some t => some t | none => p.failed_at
    cancelled_at := match u.cancelled_at with | some t => some t | none => p.cancelled_at
    updated_at := some now }

/-- DatabaseService.updateScheduledTweet (lines 61-105): rejects a falsy id,
errors when no row matches, and otherwise applies the update payload to the
matching row unconditionally - there is no inspection of the current status
before writing. Returns the updated row as .single() does. -/
def updateScheduledTweet (posts : List (String × Post)) (id : String)
    (u : PostUpdates) (now : String) : Except String (List (String × Post) × Post) :=
  if id = "" then Except.error "Missing required parameter: id"
  else
    match assocLookup posts id with
    | none => Except.error ("No scheduled tweet found with id: " ++ id)
    | some p =>
        let p1 := applyUpdates p u now
        Except.ok (assocSet posts id p1, p1)

/-- A tweet_history row (DatabaseService.saveTweetHistory), the append-only
delivery attempt record. -/
structure HistRow where
  text : Option String
  tweet_id : Option String
  has_image : Bool
  image_prompt : Option String
  type : String
  schedule_type : Option String
  status : String
  error_message : Option String
deriving DecidableEq

/-! ### JavaScript errors and the config-error classifier -/

/-- A thrown JavaScript error: either a regular Error with a message and an
optional numeric code property, or the ReferenceError raised by reading an
undeclared identifier. -/
inductive JsError where
  | error (message : String) (code : Option Nat)
  | referenceError (message : String)
deriving DecidableEq

def jsErrMessage : JsError → String
  | JsError.error m _ => m
  | JsError.referenceError m => m

def jsErrCode : JsError → Option Nat
  | JsError.error _ c => c
  | JsError.referenceError _ => none

/-- Bool test of whether the pattern occurs as a contiguous substring,
mirroring String.prototype.includes. -/
def startsWithList : List Char → List Char → Bool
  | _, [] => true
  | [], _ :: _ => false
  | a :: as, b :: bs => a = b && startsWithList as bs

def containsSubList : List Char → List Char → Bool
  | [], sub => sub.isEmpty
  | c :: rest, sub => startsWithList (c :: rest) sub || containsSubList rest sub

def messageIncludes (m pattern : String) : Bool :=
  containsSubList m.data pattern.data

/-- The configuration/credential error classifier used by both workers
(src/workers/tweetProcessor.js lines 67-80 and 193-206): substring tests on
error.message plus the 401/403/429 code checks. -/
def isConfigError (e : JsError) : Bool :=
  let m := jsErrMessage e
  messageIncludes m "demo" ||
  messageIncludes m "credentials" ||
  messageIncludes m "not configured" ||
  messageIncludes m "invalid" ||
  messageIncludes m "Unauthorized" ||
  messageIncludes m "Forbidden" ||
  messageIncludes m "Twitter API not configured" ||
  messageIncludes m "Twitter API credentials are invalid" ||
  messageIncludes m "Twitter API access forbidden" ||
  messageIncludes m "Twitter API rate limit exceeded" ||
  messageIncludes m "Request failed with code 429" ||
  jsErrCode e = some 401 ||
  jsErrCode e = some 403 ||
  jsErrCode e = some 429

/-! ### Worker model (src/workers/tweetProcessor.js)

The shared system state a worker invocation can read and write: the
scheduled_tweets rows, the append-only tweet_history log, and whether the
Bull repeatable (cron) registration for the job is still in place. Nothing in
processTweet or processScheduledTweet removes a repeatable registration; only
QueueService.cancelScheduledTweet does. -/

structure SysState where
  posts : List (String × Post)
  history : List HistRow
  recurrenceRegistered : Bool
deriving DecidableEq

/-- External post result (result.data of twitterService.postTweet). -/
structure PostOk where
  id : String
deriving DecidableEq

/-- Outcomes of the external collaborators for one worker invocation: the
shared Redis store behind queueService.canProcessTweet, and the AI, image
download, media upload and tweet posting calls, each of which can throw. -/
structure WorkerEnv where
  redis : Redis
  generateTweet : String → Except JsError String
  downloadImage : String → Except JsError String
  uploadMedia : String → Except JsError String
  postTweet : String → Option String → Except JsError PostOk

/-- Default prompt used when neither literal text nor a custom prompt is
present (tweetProcessor.js line 124). -/
def defaultPrompt : String := "Share an interesting tech insight"

/-- Lines 120-124 of processScheduledTweet: let tweetText = text ||
custom_prompt; generation happens when custom_prompt is truthy or tweetText is
falsy, with prompt = custom_prompt || text || default. Returns the prompt to
generate from, or none when the literal tweetText is used as-is. -/
def resolveTweetPrompt (text custom_prompt : String) : Option String :=
  let tweetText := if text ≠ "" then text else custom_prompt
  if custom_prompt ≠ "" || tweetText = "" then
    some (if custom_prompt ≠ "" then custom_prompt
          else if text ≠ "" then text else defaultPrompt)
  else none

/-- The per-firing text resolution of processScheduledTweet (lines 120-130)
with a pure generator: the posted text is the generated text when generation
is triggered, otherwise the literal tweetText. -/
def resolveTweetText (gen : String → String) (text custom_prompt : String) : String :=
  match resolveTweetPrompt text custom_prompt with
  | some p => gen p
  | none => if text ≠ "" then text else custom_prompt

/-- Job payload for a scheduled firing (the scheduleData object built in
src/routes/tweet.js plus the record id). Absent/null string fields are the
empty string, matching their JavaScript falsiness. -/
structure ScheduleData where
  id : String
  schedule_type : String
  text : String
  custom_prompt : String
  include_image : Bool
  image_url : String
  image_prompt : String
  tone : String
deriving DecidableEq

/-- Text resolution step inside the worker, with the fallible AI generator
(tweetProcessor.js lines 120-130). -/
def resolveTweetTextE (env : WorkerEnv) (sd : ScheduleData) : Except JsError String :=
  match resolveTweetPrompt sd.text sd.custom_prompt with
  | some p => env.generateTweet p
  | none => Except.ok (if sd.text ≠ "" then sd.text else sd.custom_prompt)

/-- Image resolution of processScheduledTweet (lines 132-151): when
include_image is set, prefer image_url, else fall back to the picsum
placeholder when image_prompt or custom_prompt is present; download then
upload. -/
def resolveMedia (env : WorkerEnv) (sd : ScheduleData) : Except JsError (Option String) :=
  if sd.include_image then
    if sd.image_url ≠ "" then
      match env.downloadImage sd.image_url with
      | Except.error e => Except.error e
      | Except.ok path =>
          match env.uploadMedia path with
          | Except.error e => Except.error e
          | Except.ok m => Except.ok (some m)
    else if sd.image_prompt ≠ "" || sd.custom_prompt ≠ "" then
      match env.downloadImage "https://picsum.photos/800/600" with
      | Except.error e => Except.error e
      | Except.ok path =>
          match env.uploadMedia path with
          | Except.error e => Except.error e
          | Except.ok m => Except.ok (some m)
    else Except.ok none
  else Except.ok none

/-- Lines 157-164: when the payload carries a record id, mark the row sent and
store the final text, the external tweet id and sent_at; a store error is
thrown. -/
def updatePostsAfterSend (sd : ScheduleData) (posts : List (String × Post))
    (tweetText : String) (result : PostOk) (now : String) :
    Except JsError (List (String × Post)) :=
  if sd.id ≠ "" then
    match updateScheduledTweet posts sd.id
        { status := some "sent", text := some tweetText,
          tweet_id := some result.id, sent_at := some now } now with
    | Except.error m => Except.error (JsError.error m none)
    | Except.ok (db1, _) => Except.ok db1
  else Except.ok posts

/-- Success history row appended by processScheduledTweet (lines 167-175). -/
def scheduledSuccessRow (sd : ScheduleData) (tweetText : String) (result : PostOk)
    (mediaId : Option String) : HistRow :=
  { text := some tweetText
    tweet_id := some result.id
    has_image := mediaId.isSome
    image_prompt := if sd.image_prompt ≠ "" then some sd.image_prompt else none
    type := "scheduled"
    schedule_type := if sd.schedule_type ≠ "" then some sd.schedule_type else none
    status := "success"
    error_message := none }

/-- The try block of processScheduledTweet (lines 102-178), in source order:
null-check on the payload, quota gate via queueService.canProcessTweet, text
resolution, media resolution, external post, record update, history append. -/
def processScheduledTweetTry (env : WorkerEnv) (jobData : Option ScheduleData)
    (st : SysState) (now : String) : Except JsError (PostOk × SysState) :=
  match jobData with
  | none => Except.error (JsError.error "Invalid job data - missing schedule data" none)
  | some sd =>
      if canProcessTweet env.redis then
        match resolveTweetTextE env sd with
        | Except.error e => Except.error e
        | Except.ok tweetText =>
            match resolveMedia env sd with
            | Except.error e => Except.error e
            | Except.ok mediaId =>
                match env.postTweet tweetText mediaId with
                | Except.error e => Except.error e
                | Except.ok result =>
                    match updatePostsAfterSend sd st.posts tweetText result now with
                    | Except.error e => Except.error e
                    | Except.ok posts1 =>
                        Except.ok (result,
                          { st with
                            posts := posts1,
                            history := st.history ++
                              [scheduledSuccessRow sd tweetText result mediaId] })
      else Except.error (JsError.error "Daily rate limit reached" none)

/-- processScheduledTweet (lines 99-224). The catch block (lines 180-223)
begins by reading scheduleData, but scheduleData is declared with const inside
the try block (line 104) and is therefore out of scope in the handler: the
handler itself raises ReferenceError before reaching updateScheduledTweet or
saveTweetHistory, so on any failure the job store and history are left exactly
as they were and the ReferenceError propagates to Bull. -/
def processScheduledTweet (env : WorkerEnv) (jobData : Option ScheduleData)
    (st : SysState) (now : String) : Except JsError PostOk × SysState :=
  match processScheduledTweetTry env jobData st now with
  | Except.ok (r, st1) => (Except.ok r, st1)
  | Except.error _ =>
      (Except.error (JsError.referenceError "scheduleData is not defined"), st)

/-- Payload of an immediate tweet job (tweetData built in src/routes/tweet.js). -/
structure TweetData where
  text : String
  imageFile : String
  imageUrl : String
  imagePrompt : String
deriving DecidableEq

/-- Image handling of processTweet (lines 30-44). -/
def resolveMediaImmediate (env : WorkerEnv) (td : TweetData) :
    Except JsError (Option String) :=
  if td.imageFile ≠ "" then
    match env.uploadMedia td.imageFile with
    | Except.error e => Except.error e
    | Except.ok m => Except.ok (some m)
  else if td.imageUrl ≠ "" then
    match env.downloadImage td.imageUrl with
    | Except.error e => Except.error e
    | Except.ok path =>
        match env.uploadMedia path with
        | Except.error e => Except.error e
        | Except.ok m => Except.ok (some m)
  else Except.ok none

/-- Success history row appended by processTweet (lines 50-57). -/
def immediateSuccessRow (td : TweetData) (result : PostOk)
    (mediaId : Option String) : HistRow :=
  { text := some td.text
    tweet_id := some result.id
    has_image := mediaId.isSome
    image_prompt := if td.imagePrompt ≠ "" then some td.imagePrompt else none
    type := "immediate"
    schedule_type := none
    status := "success"
    error_message := none }

/-- Failed history row appended by processTweet (lines 83-90). -/
def immediateFailedRow (td : TweetData) (e : JsError) : HistRow :=
  { text := some td.text
    tweet_id := none
    has_image := td.imageFile ≠ "" || td.imageUrl ≠ ""
    image_prompt := if td.imagePrompt ≠ "" then some td.imagePrompt else none
    type := "immediate"
    schedule_type := none
    status := "failed"
    error_message := some (jsErrMessage e) }

/-- The try block of processTweet (lines 27-60). -/
def processTweetTry (env : WorkerEnv) (td : TweetData) (st : SysState) :
    Except JsError (PostOk × SysState) :=
  match resolveMediaImmediate env td with
  | Except.error e => Except.error e
  | Except.ok mediaId =>
      match env.postTweet td.text mediaId with
      | Except.error e => Except.error e
      | Except.ok result =>
          Except.ok (result,
            { st with history := st.history ++ [immediateSuccessRow td result mediaId] })

/-- processTweet (lines 23-97): on failure the catch block appends a failed
history row unless the error is classified as a configuration error, in which
case nothing is written; the error is re-thrown either way. Here tweetData is
destructured outside the try block, so the handler runs normally. -/
def processTweet (env : WorkerEnv) (td : TweetData) (st : SysState) :
    Except JsError PostOk × SysState :=
  match processTweetTry env td st with
  | Except.ok (r, st1) => (Except.ok r, st1)
  | Except.error e =>
      if isConfigError e then (Except.error e, st)
      else (Except.error e, { st with history := st.history ++ [immediateFailedRow td e] })

/-! ### AIService.cleanTweetText (src/services/AIService.js lines 84-97)

Strings are modelled as lists of characters so that length and truncation
facts are direct list lemmas. -/

/-- JavaScript whitespace characters relevant to trim and the cron split. -/
def isJsSpace (c : Char) : Bool :=
  c = ' ' || c = Char.ofNat 9 || c = Char.ofNat 10 || c = Char.ofNat 13 ||
  c = Char.ofNat 11 || c = Char.ofNat 12

def isQuoteChar (c : Char) : Bool :=
  c = Char.ofNat 34 || c = Char.ofNat 39

/-- The regex replace for wrapping quotes: the global pattern anchored at the
start or at the end removes one leading and one trailing quote character. -/
def stripQuotesJs (l : List Char) : List Char :=
  let l1 := match l with
    | [] => ([] : List Char)
    | c :: rest => if isQuoteChar c then rest else c :: rest
  match l1.reverse with
  | [] => []
  | c :: rest => if isQuoteChar c then rest.reverse else l1

def tweetLabel : List Char := ['t', 'w', 'e', 'e', 't', ':']

/-- The case-insensitive replace of a leading Tweet: label followed by
whitespace. -/
def stripTweetLabel (l : List Char) : List Char :=
  if (l.take 6).map Char.toLower = tweetLabel then
    (l.drop 6).dropWhile (fun c => isJsSpace c)
  else l

/-- String.prototype.trim. -/
def trimJs (l : List Char) : List Char :=
  ((l.dropWhile (fun c => isJsSpace c)).reverse.dropWhile (fun c => isJsSpace c)).reverse

/-- The cleaning pipeline before truncation (lines 86-89). -/
def cleanCore (l : List Char) : List Char :=
  trimJs (stripTweetLabel (stripQuotesJs l))

def ellipsis : List Char := ['.', '.', '.']

/-- AIService.cleanTweetText (lines 84-97). The truncation branch computes
substring(0, maxLength - 3) - in JavaScript a negative end index clamps to 0,
which Nat subtraction reproduces - and appends the three-dot marker. -/
def cleanTweetText (l : List Char) (maxLength : Nat) : List Char :=
  let cleaned := cleanCore l
  if maxLength < cleaned.length then cleaned.take (maxLength - 3) ++ ellipsis
  else cleaned

/-! ### Submission validation (src/utils/validation.js, src/unnamed/part_001) -/

/-- Splits a list into maximal runs of non-whitespace characters, as the regex
split on one-or-more whitespace does on a string with no leading or trailing
whitespace. -/
def splitWsRuns : List Char → List Char → List (List Char)
  | [], acc => if acc.isEmpty then [] else [acc.reverse]
  | c :: rest, acc =>
      if isJsSpace c then
        if acc.isEmpty then splitWsRuns rest [] else acc.reverse :: splitWsRuns rest []
      else splitWsRuns rest (c :: acc)

/-- value.trim().split(regex of whitespace runs): the empty string splits to a
single empty field, any other trimmed string to its whitespace-separated
fields. -/
def jsSplitTrim (l : List Char) : List (List Char) :=
  let t := trimJs l
  if t.isEmpty then [[]] else splitWsRuns t []

/-- The custom Joi validator for customCron (part_001 lines 17-26): the
trimmed value must split into exactly 5 parts. -/
def customCronCheck (v : String) : Bool :=
  (jsSplitTrim v.data).length == 5

/-- A schedule submission body, fields as in schemas.schedule (part_001
lines 9-33); none models an absent key. -/
structure ScheduleSubmission where
  text : Option String
  scheduleType : String
  customPrompt : Option String
  imagePrompt : Option String
  includeImage : Option Bool
  customCron : Option String
  time : Option String
deriving DecidableEq

/-- Joi.string().max(n).optional(): absent, or a non-empty string (Joi strings
reject the empty string by default) of length at most n. -/
def optStringValid (v : Option String) (maxLen : Nat) : Bool :=
  match v with
  | none => true
  | some s => s ≠ "" && s.length ≤ maxLen

def scheduleTypeValid (t : String) : Bool :=
  t = "everyMinute" || t = "hourly" || t = "daily" || t = "weekly" || t = "custom"

def isAsciiDigit (c : Char) : Bool := '0' ≤ c && c ≤ '9'

/-- The HH:MM pattern of the time field: ([01]?[0-9]|2[0-3]):[0-5][0-9],
anchored at both ends. -/
def matchesTimePattern (s : String) : Bool :=
  match s.data with
  | [h1, c, m1, m2] =>
      isAsciiDigit h1 && c = ':' && '0' ≤ m1 && m1 ≤ '5' && isAsciiDigit m2
  | [h1, h2, c, m1, m2] =>
      ((h1 = '0' || h1 = '1') && isAsciiDigit h2 || h1 = '2' && '0' ≤ h2 && h2 ≤ '3') &&
      c = ':' && '0' ≤ m1 && m1 ≤ '5' && isAsciiDigit m2
  | _ => false

/-- Joi.when on customCron: required and checked only for scheduleType
custom, stripped otherwise. -/
def customCronFieldValid (s : ScheduleSubmission) : Bool :=
  if s.scheduleType = "custom" then
    match s.customCron with
    | none => false
    | some v => v ≠ "" && customCronCheck v
  else true

/-- Joi.when on time: required and pattern-checked for daily and weekly,
stripped otherwise. -/
def timeFieldValid (s : ScheduleSubmission) : Bool :=
  if s.scheduleType = "daily" || s.scheduleType = "weekly" then
    match s.time with
    | none => false
    | some v => matchesTimePattern v
  else true

/-- Acceptance of schemas.schedule.validate on a submission body. -/
def validateScheduleOk (s : ScheduleSubmission) : Bool :=
  optStringValid s.text 280 && scheduleTypeValid s.scheduleType &&
  optStringValid s.customPrompt 500 && optStringValid s.imagePrompt 500 &&
  customCronFieldValid s && timeFieldValid s

/-- The validate wrapper (part_001 lines 44-50): returns the value or throws a
ValidationError message. -/
def validateSchedule (s : ScheduleSubmission) : Except String ScheduleSubmission :=
  if validateScheduleOk s then Except.ok s
  else Except.error "Validation error"

/-! ### Concrete fixtures used by the theorems below -/

def scheduledPostEx : Post :=
  { schedule_type := "daily", cron_time := "0 9 * * *", status := "scheduled",
    custom_prompt := none, include_image := false, image_url := none,
    image_prompt := none, text := some "hello world", tweet_id := none,
    error_message := none, sent_at := none, failed_at := none,
    cancelled_at := none, updated_at := none }

def cancelledPostEx : Post :=
  { scheduledPostEx with
    status := "cancelled"
    cancelled_at := some "2025-10-12T00:00:00.000Z" }

/-- The error thrown by TwitterService.postTweet on a 401 response. -/
def unauthorizedErr : JsError :=
  JsError.error "Twitter API credentials are invalid. Please check your API keys and tokens." (some 401)

/-- Environment where the external post is rejected as Unauthorized and the
quota store is reachable and empty. -/
def envUnauthorized : WorkerEnv :=
  { redis := { reachable := true, data := [] }
    generateTweet := fun p => Except.ok ("AI: " ++ p)
    downloadImage := fun _ => Except.ok "uploads/image.jpg"
    uploadMedia := fun _ => Except.ok "media-1"
    postTweet := fun _ _ => Except.error unauthorizedErr }

/-- Environment whose quota store reports the bare counter key at the daily
limit, so canProcessTweet returns false. -/
def envQuotaFull : WorkerEnv :=
  { redis := { reachable := true, data := [("daily_tweet_count", 17)] }
    generateTweet := fun p => Except.ok ("AI: " ++ p)
    downloadImage := fun _ => Except.ok "uploads/image.jpg"
    uploadMedia := fun _ => Except.ok "media-1"
    postTweet := fun _ _ => Except.ok { id := "12345" } }

def sdEx : ScheduleData :=
  { id := "post-1", schedule_type := "daily", text := "hello world",
    custom_prompt := "", include_image := false, image_url := "",
    image_prompt := "", tone := "" }

def stEx : SysState :=
  { posts := [("post-1", scheduledPostEx)], history := [], recurrenceRegistered := true }

def tdEx : TweetData :=
  { text := "hi there", imageFile := "", imageUrl := "", imagePrompt := "" }

def stIm : SysState :=
  { posts := [], history := [], recurrenceRegistered := false }

def genEx : String → String := fun p => "GENERATED: " ++ p

def customSubmissionFor (v : String) : ScheduleSubmission :=
  { text := none, scheduleType := "custom", customPrompt := none,
    imagePrompt := none, includeImage := none, customCron := some v, time := none }

end XBot

namespace XBot

/-! ## Claim theorems -/

/-- C1: the claim states canProcessTweet is true iff the number of sends
recorded for the current day is strictly below 17, so after 17 recorded sends
(via incrementDailyCount) it must be false. The code violates this:
incrementDailyCount writes the date-suffixed key while canProcessTweet reads
the bare key "daily_tweet_count", which no writer ever touches. Starting from
an empty reachable store, after 17 increments on one day the date-keyed count
is 17 yet canProcessTweet still returns true. -/
theorem canProcessTweet_misses_daily_key :
    canProcessTweet (iterateIncr 17 { reachable := true, data := [] } dayEx) = true ∧
    getDailyCount (iterateIncr 17 { reachable := true, data := [] } dayEx) dayEx = 17 := by
  decide

/-- C2: the claim states that check-then-increment admissions never let the
total successful increments exceed 17 and that the 18th attempt observes
canSend false. In the code the check and the increment are separate Redis
commands on different keys, so even the fully sequential interleaving of 18
admission attempts on one day has all 18 checks pass and all 18 increments
succeed. -/
theorem admissions_exceed_daily_limit :
    (sendAttemptN 18 { reachable := true, data := [] } dayEx).1 = 18 ∧
    (sendAttemptOnce (sendAttemptN 17 { reachable := true, data := [] } dayEx).2 dayEx).1 = true := by
  decide

/-- C3 counterexample: a record already in the terminal status cancelled,
updated with status sent, comes back with status sent, not cancelled - the
claimed idempotent no-op does not hold. -/
theorem updateScheduledTweet_cancelled_overwritten :
    (updateScheduledTweet [("a", cancelledPostEx)] "a" { status := some "sent" } "t1").toOption.map
      (fun r => r.2.status) = some "sent" ∧
    (updateScheduledTweet [("a", cancelledPostEx)] "a" { status := some "sent" } "t1").toOption.map
      (fun r => r.2.status) ≠ some "cancelled" := by
  exact ⟨rfl, by decide⟩

/-- C3 (amended): updateScheduledTweet applies the update payload
unconditionally, never inspecting the stored status - last-writer-wins. For
any existing record, in any status including the terminal ones, an update
carrying status s leaves the record with status s. -/
theorem updateScheduledTweet_last_writer_wins (posts : List (String × Post))
    (id : String) (p : Post) (u : PostUpdates) (s now : String)
    (hid : id ≠ "") (hfind : assocLookup posts id = some p) (hs : u.status = some s) :
    ∃ db1 q, updateScheduledTweet posts id u now = Except.ok (db1, q) ∧ q.status = s := by
  unfold updateScheduledTweet
  rw [if_neg hid, hfind]
  exact ⟨_, _, rfl, by simp [applyUpdates, hs]⟩

/-- C3 witness: the amended statement applied to a concrete cancelled record
updated to sent. -/
theorem updateScheduledTweet_last_writer_wins_witness :
    ∃ db1 q, updateScheduledTweet [("a", cancelledPostEx)] "a"
      { status := some "sent" } "t2" = Except.ok (db1, q) ∧ q.status = "sent" :=
  updateScheduledTweet_last_writer_wins [("a", cancelledPostEx)] "a" cancelledPostEx
    { status := some "sent" } "sent" "t2" (by decide) rfl rfl

/-- C4: the claim states a config/credential failure updates the ScheduledPost
to failed with a populated errorMessage while appending zero history rows. In
processScheduledTweet the catch block reads scheduleData, which is const-bound
inside the try block, so the handler raises ReferenceError before the failed
update can run: after an Unauthorized post failure the record is still
scheduled with no errorMessage (history stays empty, but only because the
whole handler crashed). The immediate-path processTweet, whose payload is in
scope, does append zero rows on the same error as claimed. -/
theorem processScheduledTweet_unauthorized_no_failed_update :
    processScheduledTweet envUnauthorized (some sdEx) stEx "2025-10-13T09:00:00.000Z" =
      (Except.error (JsError.referenceError "scheduleData is not defined"), stEx) ∧
    (assocLookup stEx.posts "post-1").map Post.status = some "scheduled" ∧
    (assocLookup stEx.posts "post-1").map Post.error_message = some none ∧
    stEx.history = [] ∧
    processTweet envUnauthorized tdEx stIm = (Except.error unauthorizedErr, stIm) := by
  exact ⟨rfl, rfl, rfl, rfl, rfl⟩

/-- C5: when the quota tracker reports the daily quota exhausted, the firing
of a recurring post is not treated as a recorded failure: the job throws (so
Bull retries it later), the record is not moved to failed, no history row is
appended, and the repeatable registration is untouched - the whole system
state is returned unchanged. -/
theorem processScheduledTweet_quota_defers (env : WorkerEnv) (sd : ScheduleData)
    (st : SysState) (now : String) (h : canProcessTweet env.redis = false) :
    processScheduledTweet env (some sd) st now =
      (Except.error (JsError.referenceError "scheduleData is not defined"), st) := by
  simp [processScheduledTweet, processScheduledTweetTry, h]

/-- C5 witness: quota exhausted on a concrete environment and state. -/
theorem processScheduledTweet_quota_defers_witness :
    canProcessTweet envQuotaFull.redis = false ∧
    processScheduledTweet envQuotaFull (some sdEx) stEx "2025-10-13T10:00:00.000Z" =
      (Except.error (JsError.referenceError "scheduleData is not defined"), stEx) :=
  ⟨by decide,
   processScheduledTweet_quota_defers envQuotaFull sdEx stEx "2025-10-13T10:00:00.000Z" (by decide)⟩

/-- C6: canProcessTweet fails closed - when the counter store is unreachable
(the Redis read rejects), the caught error makes it return false rather than
permitting the send. -/
theorem canProcessTweet_fails_closed (r : Redis) (h : r.reachable = false) :
    canProcessTweet r = false := by
  unfold canProcessTweet redisGet
  rw [h]
  simp

/-- C6 witness: an unreachable store. -/
theorem canProcessTweet_fails_closed_witness :
    canProcessTweet { reachable := false, data := [] } = false :=
  canProcessTweet_fails_closed { reachable := false, data := [] } rfl

/-- C7: a custom-cron submission is accepted exactly when the trimmed
customCron splits into exactly 5 whitespace-separated fields; in particular
the 3-field "* * *" is rejected with a ValidationError and "*/1 * * * *" is
accepted. -/
theorem customCron_five_fields :
    (∀ v : String, validateSchedule (customSubmissionFor v) =
        Except.ok (customSubmissionFor v) ↔ (jsSplitTrim v.data).length = 5) ∧
    validateSchedule (customSubmissionFor "* * *") = Except.error "Validation error" ∧
    validateSchedule (customSubmissionFor "*/1 * * * *") =
      Except.ok (customSubmissionFor "*/1 * * * *") := by
  refine ⟨fun v => ?_, rfl, rfl⟩
  unfold validateSchedule validateScheduleOk customSubmissionFor optStringValid
    scheduleTypeValid customCronFieldValid timeFieldValid customCronCheck
  by_cases hv : v = ""
  · subst hv
    simp [jsSplitTrim, trimJs]
  · simp [hv]

/-- C8 counterexample: with both a literal text and a customPrompt present,
the firing posts text generated from the customPrompt rather than the literal
text the claim mandates. -/
theorem resolveTweetText_overrides_literal :
    resolveTweetText genEx "hello" "AI news" = "GENERATED: AI news" ∧
    resolveTweetText genEx "hello" "AI news" ≠ "hello" := by
  exact ⟨rfl, by decide⟩

/-- C8 (amended): the per-firing text resolution generates from customPrompt
whenever customPrompt is present (even when literal text is also present),
uses the literal text only when customPrompt is absent, and falls back to
generating from the default prompt when both are absent. -/
theorem resolveTweetText_resolution (gen : String → String) (text custom_prompt : String) :
    resolveTweetText gen text custom_prompt =
      if custom_prompt ≠ "" then gen custom_prompt
      else if text ≠ "" then text
      else gen defaultPrompt := by
  unfold resolveTweetText resolveTweetPrompt
  by_cases hc : custom_prompt = "" <;> by_cases ht : text = "" <;> simp [hc, ht]

/-- C9 counterexample: with maxLength = 2 the truncation branch still returns
the three-character ellipsis marker, so the result is longer than maxLength
and the claim, quantified over every maxLength, fails. -/
theorem cleanTweetText_small_maxLength :
    ¬ (cleanTweetText ['a', 'b', 'c', 'd'] 2).length ≤ 2 := by
  decide

/-- C9 (amended): for every input and every maxLength of at least 3,
cleanTweetText returns at most maxLength characters of the cleaned text
(wrapping quotes, leading Tweet: label and surrounding whitespace removed by
cleanCore); when the cleaned text exceeds maxLength the result ends with the
ellipsis marker, and otherwise it is exactly the cleaned text. -/
theorem cleanTweetText_spec (l : List Char) (m : Nat) (h : 3 ≤ m) :
    (cleanTweetText l m).length ≤ m ∧
    (m < (cleanCore l).length → ∃ p, cleanTweetText l m = p ++ ellipsis) ∧
    ((cleanCore l).length ≤ m → cleanTweetText l m = cleanCore l) := by
  unfold cleanTweetText
  by_cases hlt : m < (cleanCore l).length
  · rw [if_pos hlt]
    refine ⟨?_, fun _ => ⟨_, rfl⟩, fun hle => absurd hlt (by omega)⟩
    have htake : ((cleanCore l).take (m - 3)).length = min (m - 3) (cleanCore l).length :=
      List.length_take _ _
    simp only [List.length_append, htake, ellipsis]
    simp
    omega
  · rw [if_neg hlt]
    exact ⟨by omega, fun hc => absurd hc hlt, fun _ => rfl⟩

/-- C9 witness: the amended statement at a concrete long labelled input and
maxLength 10. -/
theorem cleanTweetText_spec_witness :
    (cleanTweetText (String.data "Tweet: abcdefghijklmnop") 10).length ≤ 10 :=
  (cleanTweetText_spec (String.data "Tweet: abcdefghijklmnop") 10 (by decide)).1

/-- C10: reads of the daily count fail open while the admission check fails
closed - on an unreachable counter store getDailyCount catches the error and
returns 0, so the remaining-budget computation reports the full daily limit,
while canProcessTweet returns false. -/
theorem getDailyCount_fails_open (r : Redis) (today : String) (h : r.reachable = false) :
    getDailyCount r today = 0 ∧ canProcessTweet r = false ∧
    rateLimitRemaining (getDailyCount r today) = (dailyTweetLimit : Int) := by
  have hg : getDailyCount r today = 0 := by
    unfold getDailyCount redisGet
    rw [h]
    simp
  refine ⟨hg, ?_, ?_⟩
  · unfold canProcessTweet redisGet
    rw [h]
    simp
  · rw [hg]
    decide

/-- C10 witness: an unreachable store on a concrete day. -/
theorem getDailyCount_fails_open_witness :
    getDailyCount { reachable := false, data := [("k", 3)] } "Mon Oct 13 2025" = 0 ∧
    canProcessTweet { reachable := false, data := [("k", 3)] } = false ∧
    rateLimitRemaining
      (getDailyCount { reachable := false, data := [("k", 3)] } "Mon Oct 13 2025") =
      (dailyTweetLimit : Int) :=
  getDailyCount_fails_open { reachable := false, data := [("k", 3)] } "Mon Oct 13 2025" rfl

end XBot
